import Mathlib

/-!
Verification of the ClickUp project-management agent
(`sample_agent/agent.py` and `server/clickup_service.py`).

The development shallowly embeds:
* a JSON value type and a parser modelling Python's `json.loads` on the
  grammar fragment the operations exchange (null, booleans, integers,
  strings without escapes, arrays, objects) — an input outside this
  fragment (floats, escaped strings) is rejected by the model parser,
  which only makes the `loads`-failure branch reachable on more inputs;
* Python truthiness tests (`if x:`) on the optional argument types used
  by the service methods;
* the `ClickUpService` request constructors (payload dictionaries built
  in source order, URL and header construction, constructor validation);
* the agent-level tool wrappers (`create_clickup_task`,
  `set_clickup_custom_field_value`) with their JSON-string argument
  parsing, where a parse failure is an `Except.error`;
* the turn controller: the `chat_node` routing decision, the per-turn
  state update records, and a fuel-based turn runner over the workflow
  graph `chat_node ⇄ tool_node`.
-/

namespace PM

/-- JSON values as exchanged with the remote service. Numbers are modelled
as integers, the only numeric form the operations produce. -/
inductive JValue where
  | null : JValue
  | bool : Bool → JValue
  | num : Int → JValue
  | str : String → JValue
  | arr : List JValue → JValue
  | obj : List (String × JValue) → JValue
deriving Repr

/-- Python truthiness of a decoded JSON value (`if x:`): empty containers,
empty strings, zero and `null`/`False` are falsy. -/
def JValue.truthy : JValue → Bool
  | .null => false
  | .bool b => b
  | .num n => n != 0
  | .str s => s != ""
  | .arr xs => !xs.isEmpty
  | .obj fs => !fs.isEmpty

/-- Skip JSON whitespace. -/
def skipWs : List Char → List Char
  | c :: cs => if c = ' ' ∨ c = '\t' ∨ c = '\n' ∨ c = '\r' then skipWs cs else c :: cs
  | [] => []

/-- Consume a run of decimal digits, accumulating their value. -/
def digitsAux : List Char → Nat → Nat × List Char
  | c :: cs, acc => if c.isDigit then digitsAux cs (acc * 10 + (c.toNat - 48)) else (acc, c :: cs)
  | [], acc => (acc, [])

/-- Parse a nonempty digit run; fails when the first char is not a digit. -/
def parseNat : List Char → Option (Nat × List Char)
  | c :: cs => if c.isDigit then some (digitsAux cs (c.toNat - 48)) else none
  | [] => none

/-- Body of a JSON string literal after the opening quote; escape sequences
are outside the modelled fragment and rejected. -/
def parseStrBody : List Char → List Char → Option (String × List Char)
  | '"' :: cs, acc => some (String.mk acc.reverse, cs)
  | '\\' :: _, _ => none
  | c :: cs, acc => parseStrBody cs (c :: acc)
  | [], _ => none

mutual

/-- Parse one JSON value; `fuel` bounds recursion depth. -/
def parseValue : Nat → List Char → Option (JValue × List Char)
  | 0, _ => none
  | fuel + 1, cs =>
    match skipWs cs with
    | 'n' :: 'u' :: 'l' :: 'l' :: rest => some (.null, rest)
    | 't' :: 'r' :: 'u' :: 'e' :: rest => some (.bool true, rest)
    | 'f' :: 'a' :: 'l' :: 's' :: 'e' :: rest => some (.bool false, rest)
    | '"' :: rest => (parseStrBody rest []).map fun p => (.str p.1, p.2)
    | '[' :: rest =>
      (match skipWs rest with
       | ']' :: rest2 => some (.arr [], rest2)
       | rest2 => (parseItems fuel rest2).map fun p => (.arr p.1, p.2))
    | '-' :: rest => (parseNat rest).map fun p => (.num (-(p.1 : Int)), p.2)
    | c :: rest =>
      if c = Char.ofNat 123 then
        match skipWs rest with
        | d :: rest2 =>
          if d = Char.ofNat 125 then some (.obj [], rest2)
          else (parseFields fuel (d :: rest2)).map fun p => (.obj p.1, p.2)
        | [] => none
      else if c.isDigit then (parseNat (c :: rest)).map fun p => (.num p.1, p.2)
      else none
    | [] => none

/-- Parse a comma-separated nonempty sequence of array items up to `]`. -/
def parseItems : Nat → List Char → Option (List JValue × List Char)
  | 0, _ => none
  | fuel + 1, cs =>
    match parseValue fuel cs with
    | some (v, rest) =>
      (match skipWs rest with
       | ',' :: rest2 => (parseItems fuel rest2).map fun p => (v :: p.1, p.2)
       | ']' :: rest2 => some ([v], rest2)
       | _ => none)
    | none => none

/-- Parse a comma-separated nonempty sequence of object members up to the
closing brace. -/
def parseFields : Nat → List Char → Option (List (String × JValue) × List Char)
  | 0, _ => none
  | fuel + 1, cs =>
    match skipWs cs with
    | '"' :: rest =>
      (match parseStrBody rest [] with
       | some (key, rest2) =>
         (match skipWs rest2 with
          | ':' :: rest3 =>
            (match parseValue fuel rest3 with
             | some (v, rest4) =>
               (match skipWs rest4 with
                | ',' :: rest5 => (parseFields fuel rest5).map fun p => ((key, v) :: p.1, p.2)
                | d :: rest5 =>
                  if d = Char.ofNat 125 then some ([(key, v)], rest5) else none
                | [] => none)
             | none => none)
          | _ => none)
       | none => none)
    | _ => none

end

/-- Model of Python's `json.loads`: parse one value and require only
whitespace to remain; `none` models a raised `JSONDecodeError`. -/
def loads (s : String) : Option JValue :=
  match parseValue (s.length + 1) s.data with
  | some (v, rest) => if skipWs rest = [] then some v else none
  | none => none

/-- Python truthiness of an `Optional[str]` argument: falsy when absent or
empty. -/
def optStrTruthy : Option String → Bool
  | some s => s != ""
  | none => false

/-- Python truthiness of an `Optional[int]` argument: falsy when absent or
zero. -/
def optIntTruthy : Option Int → Bool
  | some n => n != 0
  | none => false

/-- Python truthiness of an optional decoded JSON argument. -/
def optJTruthy : Option JValue → Bool
  | some v => v.truthy
  | none => false

/-- `if x: data[key] = x` for a string-valued optional argument. -/
def gatedStr (key : String) (v : Option String) : List (String × JValue) :=
  match v with
  | some s => if s != "" then [(key, .str s)] else []
  | none => []

/-- `if x: data[key] = x` for an integer-valued optional argument. -/
def gatedInt (key : String) (v : Option Int) : List (String × JValue) :=
  match v with
  | some n => if n != 0 then [(key, .num n)] else []
  | none => []

/-- `if x: data[key] = x` for an optional decoded JSON argument. -/
def gatedJ (key : String) (v : Option JValue) : List (String × JValue) :=
  match v with
  | some j => if j.truthy then [(key, j)] else []
  | none => []

/-- `if x is not None: data[key] = x` for an integer argument. -/
def gatedSomeInt (key : String) (v : Option Int) : List (String × JValue) :=
  match v with
  | some n => [(key, .num n)]
  | none => []

/-- `if x is not None: data[key] = x` for a boolean argument. -/
def gatedSomeBool (key : String) (v : Option Bool) : List (String × JValue) :=
  match v with
  | some b => [(key, .bool b)]
  | none => []

/-- `if x is not None: data[key] = x` for a decoded JSON argument. -/
def gatedSomeJ (key : String) (v : Option JValue) : List (String × JValue) :=
  match v with
  | some j => [(key, j)]
  | none => []

/-- One outbound HTTP request as constructed by the Remote Operation
Client: method, URL, headers and the JSON body (an ordered dict). -/
structure RemoteRequest where
  method : String
  url : String
  headers : List (String × String)
  payload : List (String × JValue)
deriving Repr

/-- The keys present in a request's JSON body. -/
def RemoteRequest.payloadKeys (r : RemoteRequest) : List String :=
  r.payload.map Prod.fst

def BASE_URL : String := "https://api.clickup.com/api/v2"

/-- The ClickUp service as constructed by `ClickUpService.__init__`. -/
structure ClickUpService where
  api_key : String
  team_id : String
  headers : List (String × String)
deriving Repr

/-- `ClickUpService.__init__`: reads the two environment values (absent
modelled as `none`); Python's `if not self.api_key` rejects an absent or
empty value with a `ValueError`, then the headers dict is built. -/
def ClickUpService.init (api_key team_id : Option String) :
    Except String ClickUpService :=
  match api_key with
  | none => .error "CLICKUP_API_KEY environment variable not set"
  | some k =>
    if k = "" then .error "CLICKUP_API_KEY environment variable not set"
    else
      match team_id with
      | none => .error "CLICKUP_TEAM_ID environment variable not set"
      | some t =>
        if t = "" then .error "CLICKUP_TEAM_ID environment variable not set"
        else .ok ⟨k, t,
          [("Authorization", k), ("Content-Type", "application/json"),
           ("Accept", "application/json")]⟩

/-- `ClickUpService.get_spaces`. -/
def ClickUpService.get_spaces (self : ClickUpService) : RemoteRequest :=
  ⟨"GET", BASE_URL ++ "/team/" ++ self.team_id ++ "/space", self.headers, []⟩

/-- `ClickUpService.get_lists`. -/
def ClickUpService.get_lists (self : ClickUpService) (space_id : String) :
    RemoteRequest :=
  ⟨"GET", BASE_URL ++ "/space/" ++ space_id ++ "/list", self.headers, []⟩

/-- `ClickUpService.get_tasks`. -/
def ClickUpService.get_tasks (self : ClickUpService) (list_id : String) :
    RemoteRequest :=
  ⟨"GET", BASE_URL ++ "/list/" ++ list_id ++ "/task", self.headers, []⟩

/-- `ClickUpService.create_task`: builds the POST request; the payload dict
starts with `name`, `due_date_time`, `start_date_time`, then appends each
optional field behind a Python truthiness test, in source order. -/
def ClickUpService.create_task (self : ClickUpService) (list_id name : String)
    (description : Option String) (due_date : Option Int)
    (priority : Option Int) (due_date_time : Bool)
    (time_estimate : Option Int) (start_date : Option Int)
    (start_date_time : Bool) (assignees : Option JValue)
    (tags : Option JValue) (status : Option String)
    (custom_fields : Option JValue) : RemoteRequest where
  method := "POST"
  url := BASE_URL ++ "/list/" ++ list_id ++ "/task"
  headers := self.headers
  payload :=
    [("name", .str name), ("due_date_time", .bool due_date_time),
     ("start_date_time", .bool start_date_time)]
    ++ gatedStr "description" description
    ++ gatedInt "due_date" due_date
    ++ gatedInt "priority" priority
    ++ gatedInt "time_estimate" time_estimate
    ++ gatedInt "start_date" start_date
    ++ gatedJ "assignees" assignees
    ++ gatedJ "tags" tags
    ++ gatedStr "status" status
    ++ gatedJ "custom_fields" custom_fields

/-- `ClickUpService.update_task`: builds the PUT request; the payload dict
starts empty and appends only provided fields — `name`, `description` and
`status` behind a truthiness test, the rest behind `is not None`, in
source order. -/
def ClickUpService.update_task (self : ClickUpService) (task_id : String)
    (name description status : Option String)
    (priority due_date : Option Int) (due_date_time : Option Bool)
    (time_estimate start_date : Option Int) (start_date_time : Option Bool)
    (assignees : Option JValue) (archived : Option Bool) : RemoteRequest where
  method := "PUT"
  url := BASE_URL ++ "/task/" ++ task_id
  headers := self.headers
  payload :=
    gatedStr "name" name
    ++ gatedStr "description" description
    ++ gatedStr "status" status
    ++ gatedSomeInt "priority" priority
    ++ gatedSomeInt "due_date" due_date
    ++ gatedSomeBool "due_date_time" due_date_time
    ++ gatedSomeInt "time_estimate" time_estimate
    ++ gatedSomeInt "start_date" start_date
    ++ gatedSomeBool "start_date_time" start_date_time
    ++ gatedSomeJ "assignees" assignees
    ++ gatedSomeBool "archived" archived

/-- `ClickUpService.delete_task`. -/
def ClickUpService.delete_task (self : ClickUpService) (task_id : String) :
    RemoteRequest :=
  ⟨"DELETE", BASE_URL ++ "/task/" ++ task_id, self.headers, []⟩

/-- `ClickUpService.get_task_by_id`. -/
def ClickUpService.get_task_by_id (self : ClickUpService) (task_id : String) :
    RemoteRequest :=
  ⟨"GET", BASE_URL ++ "/task/" ++ task_id, self.headers, []⟩

/-- `ClickUpService.set_custom_field_value`: POST with body
`{"value": value}`. -/
def ClickUpService.set_custom_field_value (self : ClickUpService)
    (task_id field_id : String) (value : JValue) : RemoteRequest :=
  ⟨"POST", BASE_URL ++ "/task/" ++ task_id ++ "/field/" ++ field_id,
   self.headers, [("value", value)]⟩

/-- `json.loads(s) if s else None` from the agent tool wrappers: an absent
or empty string is skipped; otherwise a parse failure raises a
`JSONDecodeError`, modelled as `Except.error`. -/
def parseOptJSONArg (s : Option String) : Except String (Option JValue) :=
  match s with
  | none => .ok none
  | some s =>
    if s = "" then .ok none
    else
      match loads s with
      | some v => .ok (some v)
      | none => .error ("JSONDecodeError while parsing " ++ s)

/-- The agent tool `create_clickup_task`: parses `assignees` and `tags`
from JSON strings (a failure raises), defaults the two `*_date_time`
flags to `False` when `None`, then delegates to
`ClickUpService.create_task` with `custom_fields` not passed. -/
def create_clickup_task (clickup : ClickUpService) (list_id name : String)
    (description : Option String) (due_date priority : Option Int)
    (due_date_time : Option Bool) (time_estimate start_date : Option Int)
    (start_date_time : Option Bool) (assignees tags status : Option String) :
    Except String RemoteRequest :=
  match parseOptJSONArg assignees with
  | .error e => .error e
  | .ok assignees_list =>
    match parseOptJSONArg tags with
    | .error e => .error e
    | .ok tags_list =>
      .ok (clickup.create_task list_id name description due_date priority
        (due_date_time.getD false) time_estimate start_date
        (start_date_time.getD false) assignees_list tags_list status none)

/-- The agent tool `update_clickup_task`: parses `assignees` from a JSON
string (a failure raises) and delegates to `ClickUpService.update_task`. -/
def update_clickup_task (clickup : ClickUpService) (task_id : String)
    (name description status : Option String) (priority due_date : Option Int)
    (due_date_time : Option Bool) (time_estimate start_date : Option Int)
    (start_date_time : Option Bool) (assignees : Option String)
    (archived : Option Bool) : Except String RemoteRequest :=
  match parseOptJSONArg assignees with
  | .error e => .error e
  | .ok assignees_list =>
    .ok (clickup.update_task task_id name description status priority due_date
      due_date_time time_estimate start_date start_date_time assignees_list
      archived)

/-- The agent tool `set_clickup_custom_field_value`: tries `json.loads` on
`value` and falls back to the raw string on failure, then delegates to
`ClickUpService.set_custom_field_value`. -/
def set_clickup_custom_field_value (clickup : ClickUpService)
    (task_id field_id value : String) : RemoteRequest :=
  clickup.set_custom_field_value task_id field_id
    (match loads value with
     | some v => v
     | none => .str value)

/-- One structured tool-invocation request inside an assistant message. -/
structure ToolCall where
  id : String
  name : String
  args : List (String × JValue)
deriving Repr

/-- One reasoning-step output (an `AIMessage`): content plus an ordered
sequence of tool-invocation requests. -/
structure Response where
  content : String
  tool_calls : List ToolCall
deriving Repr

/-- A conversation message record. -/
inductive Message where
  | user (content : String)
  | system (content : String)
  | ai (response : Response)
  | tool (content : String) (tool_call_id : String)
deriving Repr

/-- Dispatch of a `create_clickup_task` tool call. The tool node's default
error handler converts a raised exception into an error-content
tool-result message instead of an uncaught exception, so the turn never
crashes; the remote round-trip on success is delegated to the `respond`
oracle. -/
def dispatch_create_clickup_task (respond : RemoteRequest → String)
    (clickup : ClickUpService) (call_id : String) (list_id name : String)
    (description : Option String) (due_date priority : Option Int)
    (due_date_time : Option Bool) (time_estimate start_date : Option Int)
    (start_date_time : Option Bool) (assignees tags status : Option String) :
    Message :=
  match create_clickup_task clickup list_id name description due_date priority
      due_date_time time_estimate start_date start_date_time assignees tags
      status with
  | .ok req => .tool (respond req) call_id
  | .error e => .tool ("Error: " ++ e ++ "\n Please fix your mistakes.") call_id

/-- One externally supplied action descriptor; the controller reads only
`action.get("name")`, which may be absent. -/
structure ExternalAction where
  name : Option String
deriving Repr

/-- The agent state: `CopilotKitState` (messages, copilotkit actions)
extended with the agent's scratch fields. -/
structure AgentState where
  messages : List Message
  language : Option String
  proverbs : List String
  spaces : List String
  lists : List String
  tasks : List String
  copilotkit_actions : List ExternalAction

/-- The workflow's routing targets from `chat_node`: the local tool node or
`__end__`. -/
inductive NextNode where
  | tool_node
  | end_node
deriving Repr, DecidableEq

/-- A node's state update: which channels of the agent state it writes.
`messages` is an append channel; the other fields are written only when
`some`. -/
structure StateUpdate where
  messages : List Message
  proverbs : Option (List String)
  spaces : Option (List String)
  lists : Option (List String)
  tasks : Option (List String)
deriving Repr

/-- The update `{"messages": response}`: appends to the message channel and
writes no other state field. -/
def messagesOnly (ms : List Message) : StateUpdate :=
  ⟨ms, none, none, none, none⟩

/-- A `Command(goto=..., update=...)` returned by `chat_node`. -/
structure Command where
  goto : NextNode
  update : StateUpdate
deriving Repr

/-- Applying a node's state update to the agent state. -/
def AgentState.applyUpdate (s : AgentState) (u : StateUpdate) : AgentState where
  messages := s.messages ++ u.messages
  language := s.language
  proverbs := u.proverbs.getD s.proverbs
  spaces := u.spaces.getD s.spaces
  lists := u.lists.getD s.lists
  tasks := u.tasks.getD s.tasks
  copilotkit_actions := s.copilotkit_actions

/-- The names of the `tools` list bound to the tool node (the local
Operation Set). -/
def tools : List String :=
  ["get_clickup_spaces", "get_clickup_lists", "get_clickup_tasks",
   "create_clickup_task", "update_clickup_task", "delete_clickup_task",
   "get_clickup_task_by_id", "set_clickup_custom_field_value"]

/-- The routing decision of `chat_node` on the reasoning step's output
(the model response is an input: §4.2 leaves it nondeterministic). When
the response carries tool calls and the first one's name matches no
externally supplied action, route to `tool_node`; otherwise fall through
to `__end__`. Both outcomes update only `messages` with the response. -/
def chat_node (state : AgentState) (response : Response) : Command :=
  match response.tool_calls with
  | first :: _ =>
    if (state.copilotkit_actions.any
        fun action => action.name == some first.name) = false then
      ⟨.tool_node, messagesOnly [.ai response]⟩
    else
      ⟨.end_node, messagesOnly [.ai response]⟩
  | [] => ⟨.end_node, messagesOnly [.ai response]⟩

/-- The tool node's update: one tool-result message per tool call of the
triggering message, order-preserved; execution of a single call is
delegated to the `execTool` oracle. -/
def tool_node_update (execTool : ToolCall → Message) (calls : List ToolCall) :
    StateUpdate :=
  messagesOnly (calls.map execTool)

/-- Fuel-bounded run of one turn of the workflow graph: enter at
`chat_node`, consume one scripted model response per reasoning step,
follow the command's goto, run the tool node and loop back on
`tool_node`, stop at `__end__`. Returns the final state with the number
of reasoning and dispatch steps taken. -/
def runTurn (execTool : ToolCall → Message) :
    Nat → AgentState → List Response → Option (AgentState × Nat × Nat)
  | 0, _, _ => none
  | _ + 1, _, [] => none
  | fuel + 1, state, response :: script =>
    let cmd := chat_node state response
    let state1 := state.applyUpdate cmd.update
    match cmd.goto with
    | .end_node => some (state1, 1, 0)
    | .tool_node =>
      let state2 := state1.applyUpdate
        (tool_node_update execTool response.tool_calls)
      match runTurn execTool fuel state2 script with
      | some (final, r, d) => some (final, r + 1, d + 1)
      | none => none

/-! ### Concrete fixtures used by witnesses and counterexamples -/

/-- A service instance as built by a successful `__init__`. -/
def svcA : ClickUpService :=
  ⟨"test-key", "test-team",
   [("Authorization", "test-key"), ("Content-Type", "application/json"),
    ("Accept", "application/json")]⟩

/-- One externally supplied action descriptor. -/
def actA : ExternalAction := ⟨some "external_say_hello"⟩

/-- A conversation state with cached spaces/lists/tasks and one external
action. -/
def st0 : AgentState := ⟨[], none, ["p1"], ["s1"], ["l1"], ["t1"], [actA]⟩

/-- A response whose FIRST tool call matches the external action while the
SECOND names a local operation. -/
def respExternalFirst : Response :=
  ⟨"", [⟨"c1", "external_say_hello", []⟩, ⟨"c2", "create_clickup_task", []⟩]⟩

/-- A response whose single tool call names a local operation. -/
def respLocal : Response := ⟨"", [⟨"c1", "create_clickup_task", []⟩]⟩

/-- A response whose single tool call names an operation in NEITHER the
local Operation Set nor the external action list. -/
def respUnknown : Response := ⟨"", [⟨"c1", "mystery_op", []⟩]⟩

/-- A response with no tool calls. -/
def respPlain : Response := ⟨"hi", []⟩

/-- A trivial tool-execution oracle. -/
def execT : ToolCall → Message := fun tc => .tool "ok" tc.id

/-! ### Helper lemmas about the gated payload segments -/

theorem mem_keys_gatedStr (k key : String) (v : Option String) :
    k ∈ (gatedStr key v).map Prod.fst ↔ (k = key ∧ optStrTruthy v = true) := by
  cases v with
  | none => simp [gatedStr, optStrTruthy]
  | some s =>
    by_cases h : s = "" <;> simp [gatedStr, optStrTruthy, h]

theorem mem_keys_gatedInt (k key : String) (v : Option Int) :
    k ∈ (gatedInt key v).map Prod.fst ↔ (k = key ∧ optIntTruthy v = true) := by
  cases v with
  | none => simp [gatedInt, optIntTruthy]
  | some n =>
    by_cases h : n = 0 <;> simp [gatedInt, optIntTruthy, h]

theorem mem_keys_gatedJ (k key : String) (v : Option JValue) :
    k ∈ (gatedJ key v).map Prod.fst ↔ (k = key ∧ optJTruthy v = true) := by
  cases v with
  | none => simp [gatedJ, optJTruthy]
  | some j =>
    by_cases h : j.truthy <;> simp [gatedJ, optJTruthy, h]

theorem mem_keys_gatedSomeInt (k key : String) (v : Option Int) :
    k ∈ (gatedSomeInt key v).map Prod.fst ↔ (k = key ∧ v.isSome = true) := by
  cases v <;> simp [gatedSomeInt]

theorem mem_keys_gatedSomeBool (k key : String) (v : Option Bool) :
    k ∈ (gatedSomeBool key v).map Prod.fst ↔ (k = key ∧ v.isSome = true) := by
  cases v <;> simp [gatedSomeBool]

theorem mem_keys_gatedSomeJ (k key : String) (v : Option JValue) :
    k ∈ (gatedSomeJ key v).map Prod.fst ↔ (k = key ∧ v.isSome = true) := by
  cases v <;> simp [gatedSomeJ]

/-- The keys of a `create_task` payload, as a function of the arguments. -/
def createKeys (svc : ClickUpService) (list_id name : String)
    (description : Option String) (due_date priority : Option Int)
    (due_date_time : Bool) (time_estimate start_date : Option Int)
    (start_date_time : Bool) (assignees tags : Option JValue)
    (status : Option String) (custom_fields : Option JValue) : List String :=
  (svc.create_task list_id name description due_date priority due_date_time
    time_estimate start_date start_date_time assignees tags status
    custom_fields).payloadKeys

/-- The keys of an `update_task` payload, as a function of the arguments. -/
def updateKeys (svc : ClickUpService) (task_id : String)
    (name description status : Option String) (priority due_date : Option Int)
    (due_date_time : Option Bool) (time_estimate start_date : Option Int)
    (start_date_time : Option Bool) (assignees : Option JValue)
    (archived : Option Bool) : List String :=
  (svc.update_task task_id name description status priority due_date
    due_date_time time_estimate start_date start_date_time assignees
    archived).payloadKeys

/-- Both branches of `chat_node` return the update `{"messages": response}`. -/
theorem chat_node_update_eq (state : AgentState) (response : Response) :
    (chat_node state response).update = messagesOnly [.ai response] := by
  cases hc : response.tool_calls with
  | nil => simp [chat_node, hc]
  | cons first rest =>
    by_cases ha : (state.copilotkit_actions.any
        fun action => action.name == some first.name) = false <;>
      simp [chat_node, hc, ha]

/-- A completed turn leaves the cached `spaces`, `lists`, `tasks` and
`proverbs` fields exactly as they were when the turn began. -/
theorem runTurn_frame (execTool : ToolCall → Message) (fuel : Nat) :
    ∀ (state : AgentState) (script : List Response) (final : AgentState)
      (r d : Nat),
      runTurn execTool fuel state script = some (final, r, d) →
      final.spaces = state.spaces ∧ final.lists = state.lists ∧
      final.tasks = state.tasks ∧ final.proverbs = state.proverbs := by
  induction fuel with
  | zero => intro state script final r d h; simp [runTurn] at h
  | succ n ih =>
    intro state script final r d h
    cases script with
    | nil => simp [runTurn] at h
    | cons response rs =>
      simp only [runTurn] at h
      cases hgoto : (chat_node state response).goto with
      | end_node =>
        rw [hgoto] at h
        simp only [Option.some.injEq, Prod.mk.injEq] at h
        obtain ⟨hf, -⟩ := h
        subst hf
        simp [chat_node_update_eq, AgentState.applyUpdate, messagesOnly]
      | tool_node =>
        rw [hgoto] at h
        cases hrec : runTurn execTool n
            ((state.applyUpdate (chat_node state response).update).applyUpdate
              (tool_node_update execTool response.tool_calls)) rs with
        | none => rw [hrec] at h; simp at h
        | some p =>
          obtain ⟨f2, r2, d2⟩ := p
          rw [hrec] at h
          simp only [Option.some.injEq, Prod.mk.injEq] at h
          obtain ⟨hf, -⟩ := h
          have hfields := ih _ rs f2 r2 d2 hrec
          subst hf
          simpa [chat_node_update_eq, AgentState.applyUpdate, messagesOnly,
            tool_node_update] using hfields

/-! ### Claim theorems -/

/-- C1: whenever the reasoning step's output has a first tool-invocation
request whose name matches an externally supplied action, the turn
controller halts in DONE after that single reasoning step with zero
dispatch steps, only appending the assistant message — regardless of what
the later tool calls in `rest` name (in particular local operations):
only the first request is inspected. -/
theorem C1_external_first_halts_done (execTool : ToolCall → Message)
    (fuel : Nat) (state : AgentState) (response : Response)
    (script : List Response) (first : ToolCall) (rest : List ToolCall)
    (hcalls : response.tool_calls = first :: rest)
    (hext : (state.copilotkit_actions.any
      fun action => action.name == some first.name) = true) :
    runTurn execTool (fuel + 1) state (response :: script) =
      some ({ state with messages := state.messages ++ [.ai response] },
        1, 0) := by
  simp [runTurn, chat_node, hcalls, hext, AgentState.applyUpdate,
    messagesOnly]

/-- C1 witness: a response whose first call matches the external action and
whose second call names the local `create_clickup_task` still halts in
DONE after one reasoning step and zero dispatch steps. -/
theorem C1_witness :
    runTurn execT 5 st0 [respExternalFirst] =
      some ({ st0 with
        messages := st0.messages ++ [.ai respExternalFirst] }, 1, 0) :=
  C1_external_first_halts_done execT 4 st0 respExternalFirst []
    ⟨"c1", "external_say_hello", []⟩ [⟨"c2", "create_clickup_task", []⟩]
    rfl rfl

/-- C2 counterexample: a first tool call named `mystery_op` is in neither
the local Operation Set (`tools`) nor the external action list, yet
`chat_node` routes to the local dispatch node — refuting the claim that
the DISPATCH transition requires the first name to match a local
operation and that a name in neither set avoids local dispatch. -/
theorem C2_counterexample :
    (chat_node st0 respUnknown).goto = .tool_node ∧
    "mystery_op" ∉ tools ∧
    (st0.copilotkit_actions.any
      fun action => action.name == some "mystery_op") = false :=
  ⟨rfl, by decide, rfl⟩

/-- C2 amended: the REASONING→DISPATCH transition is taken exactly when the
output has at least one tool-invocation request and the FIRST request's
name matches no externally supplied action; membership in the local
Operation Set is never checked. -/
theorem C2_dispatch_iff_first_not_external (state : AgentState)
    (response : Response) :
    (chat_node state response).goto = .tool_node ↔
      ∃ first rest, response.tool_calls = first :: rest ∧
        (state.copilotkit_actions.any
          fun action => action.name == some first.name) = false := by
  cases h : response.tool_calls with
  | nil => simp [chat_node, h]
  | cons first rest =>
    by_cases ha : (state.copilotkit_actions.any
        fun action => action.name == some first.name) = false
    · simp [chat_node, h, ha]
      simpa using ha
    · simp [chat_node, h, ha]
      rw [Bool.not_eq_false] at ha
      simpa using ha

/-- C3: when the reasoning step's output has no tool-invocation requests,
the turn terminates in DONE after exactly one reasoning step and zero
dispatch steps, appending that single assistant message to the state. -/
theorem C3_no_tool_calls_single_reasoning_done
    (execTool : ToolCall → Message) (fuel : Nat) (state : AgentState)
    (response : Response) (script : List Response)
    (hcalls : response.tool_calls = []) :
    runTurn execTool (fuel + 1) state (response :: script) =
      some ({ state with messages := state.messages ++ [.ai response] },
        1, 0) := by
  simp [runTurn, chat_node, hcalls, AgentState.applyUpdate, messagesOnly]

/-- C3 witness: a plain response terminates the concrete turn in one
reasoning step and zero dispatch steps. -/
theorem C3_witness :
    runTurn execT 5 st0 [respPlain] =
      some ({ st0 with messages := st0.messages ++ [.ai respPlain] }, 1, 0) :=
  C3_no_tool_calls_single_reasoning_done execT 4 st0 respPlain [] rfl

/-- C4 counterexample: the empty string is unparseable JSON
(`loads "" = none`), yet `create_clickup_task` invoked with
`assignees=""` succeeds with no `assignees` field and raises no
ValidationError — the `if assignees` truthiness gate skips parsing, so an
unparseable provided string does not always yield a validation error. -/
theorem C4_counterexample :
    loads "" = none ∧
    (create_clickup_task svcA "l1" "Task"
      none none none
      none none none
      none (some "") none
      none).toOption.map (fun r => r.payload.lookup "assignees") =
      some none :=
  ⟨rfl, rfl⟩

/-- C4 amended: a NON-EMPTY `assignees` or `tags` string is JSON-parsed
before being forwarded — on success the parsed value is what reaches the
remote payload construction, and on failure the tool raises a validation
error surfaced by the dispatch step as an error-content tool-result
message (never an uncaught crash); `assignees="[123,456]"` yields the
parsed list `[123, 456]` in the payload and `assignees="not json"` yields
an error, not a pass-through of the raw string. An empty string is
treated as absent: skipped unparsed, with no error. -/
theorem C4_assignees_tags_parsed_or_error :
    (∀ (svc : ClickUpService) (l n : String) (d : Option String)
        (dd p : Option Int) (ddt : Option Bool) (te sd : Option Int)
        (sdt : Option Bool) (st : Option String) (s : String) (j : JValue),
      loads s = some j →
      create_clickup_task svc l n d dd p ddt te sd sdt (some s) none st =
        .ok (svc.create_task l n d dd p (ddt.getD false) te sd
          (sdt.getD false) (some j) none st none)) ∧
    (∀ (svc : ClickUpService) (l n : String) (d : Option String)
        (dd p : Option Int) (ddt : Option Bool) (te sd : Option Int)
        (sdt : Option Bool) (st : Option String) (s : String) (j : JValue),
      loads s = some j →
      create_clickup_task svc l n d dd p ddt te sd sdt none (some s) st =
        .ok (svc.create_task l n d dd p (ddt.getD false) te sd
          (sdt.getD false) none (some j) st none)) ∧
    (∀ (svc : ClickUpService) (l n : String) (d : Option String)
        (dd p : Option Int) (ddt : Option Bool) (te sd : Option Int)
        (sdt : Option Bool) (st : Option String) (s : String),
      s ≠ "" → loads s = none →
      (create_clickup_task svc l n d dd p ddt te sd sdt (some s) none
        st).isOk = false) ∧
    (∀ (respond : RemoteRequest → String) (svc : ClickUpService)
        (call_id l n : String) (d : Option String) (dd p : Option Int)
        (ddt : Option Bool) (te sd : Option Int) (sdt : Option Bool)
        (st : Option String) (s : String),
      s ≠ "" → loads s = none →
      dispatch_create_clickup_task respond svc call_id l n d dd p ddt te sd
          sdt (some s) none st =
        .tool ("Error: " ++ ("JSONDecodeError while parsing " ++ s) ++
          "\n Please fix your mistakes.") call_id) ∧
    (create_clickup_task svcA "l1" "Task"
      none none none
      none none none
      none (some "[123,456]") none
      none).toOption.map (fun r => r.payload.lookup "assignees") =
      some (some (.arr [.num 123, .num 456])) ∧
    (create_clickup_task svcA "l1" "Task"
      none none none
      none none none
      none (some "not json") none
      none).isOk = false := by
  refine ⟨?_, ?_, ?_, ?_, rfl, rfl⟩
  · intro svc l n d dd p ddt te sd sdt st s j h
    have hs : s ≠ "" := by
      intro he
      subst he
      rw [show loads "" = none from rfl] at h
      exact Option.noConfusion h
    simp [create_clickup_task, parseOptJSONArg, hs, h]
  · intro svc l n d dd p ddt te sd sdt st s j h
    have hs : s ≠ "" := by
      intro he
      subst he
      rw [show loads "" = none from rfl] at h
      exact Option.noConfusion h
    simp [create_clickup_task, parseOptJSONArg, hs, h]
  · intro svc l n d dd p ddt te sd sdt st s hs h
    simp [create_clickup_task, parseOptJSONArg, hs, h, Except.isOk,
      Except.toBool]
  · intro respond svc call_id l n d dd p ddt te sd sdt st s hs h
    simp [dispatch_create_clickup_task, create_clickup_task,
      parseOptJSONArg, hs, h]

/-- C4 witness: at `assignees="[123,456]"` the forwarded value is the parsed
list, at `assignees="not json"` the tool errors and the dispatch step
surfaces the failure as an error tool-result message. -/
theorem C4_witness :
    create_clickup_task svcA "l1" "Task"
        none none none
        none none none
        none (some "[123,456]") none
        none =
      .ok (svcA.create_task "l1" "Task" none none none false none none false
        (some (.arr [.num 123, .num 456])) none none none) ∧
    (create_clickup_task svcA "l1" "Task"
      none none none
      none none none
      none (some "not json") none
      none).isOk = false ∧
    dispatch_create_clickup_task (fun _ => "ok") svcA "c1" "l1" "Task"
        none none none
        none none none
        none (some "not json") none
        none =
      .tool ("Error: " ++ ("JSONDecodeError while parsing " ++ "not json") ++
        "\n Please fix your mistakes.") "c1" :=
  ⟨C4_assignees_tags_parsed_or_error.1 svcA "l1" "Task" none none none none
      none none none none "[123,456]" (.arr [.num 123, .num 456]) rfl,
   C4_assignees_tags_parsed_or_error.2.2.1 svcA "l1" "Task" none none none
      none none none none none "not json" (by decide) rfl,
   C4_assignees_tags_parsed_or_error.2.2.2.1 (fun _ => "ok") svcA "c1" "l1"
      "Task" none none none none none none none none "not json" (by decide)
      rfl⟩

/-- C5: `set_custom_field_value` first attempts to parse the string value
as JSON and forwards the parsed value on success, else forwards the raw
string — exactly one of the two forms, and a parse failure is never an
error; concretely `value="42"` forwards the number `42` and
`value="red"` forwards the string `"red"`. -/
theorem C5_set_custom_field_parse_then_fallback (svc : ClickUpService)
    (task_id field_id value : String) :
    ((∃ j, loads value = some j ∧
        (set_clickup_custom_field_value svc task_id field_id value).payload =
          [("value", j)]) ∨
      (loads value = none ∧
        (set_clickup_custom_field_value svc task_id field_id value).payload =
          [("value", .str value)])) ∧
    (set_clickup_custom_field_value svcA "t1" "f1" "42").payload =
      [("value", .num 42)] ∧
    (set_clickup_custom_field_value svcA "t1" "f1" "red").payload =
      [("value", .str "red")] := by
  refine ⟨?_, rfl, rfl⟩
  cases h : loads value with
  | none =>
    right
    exact ⟨rfl, by simp [set_clickup_custom_field_value,
      ClickUpService.set_custom_field_value, h]⟩
  | some j =>
    left
    exact ⟨j, rfl, by simp [set_clickup_custom_field_value,
      ClickUpService.set_custom_field_value, h]⟩

/-- C6 counterexample: `update_task` called with the provided (but empty)
`name=""` produces an empty payload — the provided `name` field is
dropped by the truthiness gate, refuting "the outgoing payload contains
exactly the fields that were provided by the caller". -/
theorem C6_counterexample :
    (svcA.update_task "t1"
      (some "") none none
      none none none
      none none none
      none none).payload = [] ∧
    "name" ∉ updateKeys svcA "t1"
      (some "") none none
      none none none
      none none none
      none none :=
  ⟨rfl, by decide⟩

/-- C6 amended: the `update_task` payload contains a field exactly when the
caller provided it with a value passing the code's presence test —
truthiness for the string fields `name`/`description`/`status` (so a
provided empty string is also dropped), `is not None` for every other
field; omitted fields never appear, and with only `status="done"` the
payload is exactly `{status: "done"}`. -/
theorem C6_update_payload_only_provided :
    (∀ (svc : ClickUpService) (task_id : String)
        (name description status : Option String)
        (priority due_date : Option Int) (due_date_time : Option Bool)
        (time_estimate start_date : Option Int)
        (start_date_time : Option Bool) (assignees : Option JValue)
        (archived : Option Bool),
      ("name" ∈ updateKeys svc task_id name description status priority
          due_date due_date_time time_estimate start_date start_date_time
          assignees archived ↔ optStrTruthy name = true) ∧
      ("description" ∈ updateKeys svc task_id name description status
          priority due_date due_date_time time_estimate start_date
          start_date_time assignees archived ↔
        optStrTruthy description = true) ∧
      ("status" ∈ updateKeys svc task_id name description status priority
          due_date due_date_time time_estimate start_date start_date_time
          assignees archived ↔ optStrTruthy status = true) ∧
      ("priority" ∈ updateKeys svc task_id name description status priority
          due_date due_date_time time_estimate start_date start_date_time
          assignees archived ↔ priority.isSome = true) ∧
      ("due_date" ∈ updateKeys svc task_id name description status priority
          due_date due_date_time time_estimate start_date start_date_time
          assignees archived ↔ due_date.isSome = true) ∧
      ("due_date_time" ∈ updateKeys svc task_id name description status
          priority due_date due_date_time time_estimate start_date
          start_date_time assignees archived ↔
        due_date_time.isSome = true) ∧
      ("time_estimate" ∈ updateKeys svc task_id name description status
          priority due_date due_date_time time_estimate start_date
          start_date_time assignees archived ↔
        time_estimate.isSome = true) ∧
      ("start_date" ∈ updateKeys svc task_id name description status
          priority due_date due_date_time time_estimate start_date
          start_date_time assignees archived ↔ start_date.isSome = true) ∧
      ("start_date_time" ∈ updateKeys svc task_id name description status
          priority due_date due_date_time time_estimate start_date
          start_date_time assignees archived ↔
        start_date_time.isSome = true) ∧
      ("assignees" ∈ updateKeys svc task_id name description status priority
          due_date due_date_time time_estimate start_date start_date_time
          assignees archived ↔ assignees.isSome = true) ∧
      ("archived" ∈ updateKeys svc task_id name description status priority
          due_date due_date_time time_estimate start_date start_date_time
          assignees archived ↔ archived.isSome = true)) ∧
    (svcA.update_task "t1"
      none none (some "done")
      none none none
      none none none
      none none).payload = [("status", .str "done")] := by
  refine ⟨?_, rfl⟩
  intro svc task_id name description status priority due_date due_date_time
    time_estimate start_date start_date_time assignees archived
  simp only [updateKeys, RemoteRequest.payloadKeys,
    ClickUpService.update_task, List.map_append, List.map_cons, List.map_nil,
    List.mem_append, List.mem_cons, List.not_mem_nil, mem_keys_gatedStr,
    mem_keys_gatedSomeInt, mem_keys_gatedSomeBool, mem_keys_gatedSomeJ]
  simp

/-- C7 counterexample: `create_task` invoked with `priority=7` — outside
the documented set {1, 2, 3, 4} — succeeds with no validation error and
forwards `7` into the payload, refuting the claim that the priority
argument is validated as a member of {1, 2, 3, 4}. -/
theorem C7_counterexample :
    (create_clickup_task svcA "l1" "Task"
      none none (some 7)
      none none none
      none none none
      none).toOption.map (fun r => r.payload.lookup "priority") =
      some (some (.num 7)) ∧
    (7 : Int) ∉ ([1, 2, 3, 4] : List Int) :=
  ⟨rfl, by decide⟩

/-- C7 amended: `create_task` performs no validation of `priority`: any
provided non-zero priority — in particular each member of {1, 2, 3, 4},
but equally any other value — is accepted without error and placed into
the remote payload's `priority` field bit-exact. -/
theorem C7_priority_forwarded_unvalidated (svc : ClickUpService)
    (list_id name : String) (p : Int) (hp : p ≠ 0) :
    create_clickup_task svc list_id name
        none none (some p)
        none none none
        none none none
        none =
      .ok (svc.create_task list_id name none none (some p) false none none
        false none none none none) ∧
    ("priority", JValue.num p) ∈
      (svc.create_task list_id name none none (some p) false none none false
        none none none none).payload := by
  refine ⟨rfl, ?_⟩
  simp [ClickUpService.create_task, gatedStr, gatedInt, gatedJ, hp]

/-- C7 witness: each documented priority 1..4 is forwarded bit-exact. -/
theorem C7_witness :
    ("priority", JValue.num 1) ∈
      (svcA.create_task "l1" "T" none none (some 1) false none none false
        none none none none).payload ∧
    ("priority", JValue.num 2) ∈
      (svcA.create_task "l1" "T" none none (some 2) false none none false
        none none none none).payload ∧
    ("priority", JValue.num 3) ∈
      (svcA.create_task "l1" "T" none none (some 3) false none none false
        none none none none).payload ∧
    ("priority", JValue.num 4) ∈
      (svcA.create_task "l1" "T" none none (some 4) false none none false
        none none none none).payload :=
  ⟨(C7_priority_forwarded_unvalidated svcA "l1" "T" 1 (by decide)).2,
   (C7_priority_forwarded_unvalidated svcA "l1" "T" 2 (by decide)).2,
   (C7_priority_forwarded_unvalidated svcA "l1" "T" 3 (by decide)).2,
   (C7_priority_forwarded_unvalidated svcA "l1" "T" 4 (by decide)).2⟩

/-- C8: constructing the Remote Operation Client with either required
configuration value absent fails with an error, and every successfully
constructed instance carries the authorization credential,
`Content-Type: application/json` and `Accept: application/json` as its
request headers. -/
theorem C8_init_requires_config_and_sets_headers (k t : Option String)
    (s : ClickUpService) :
    (ClickUpService.init none t).isOk = false ∧
    (ClickUpService.init k none).isOk = false ∧
    (ClickUpService.init k t = .ok s →
      k = some s.api_key ∧
      s.headers = [("Authorization", s.api_key),
        ("Content-Type", "application/json"),
        ("Accept", "application/json")]) := by
  refine ⟨rfl, ?_, ?_⟩
  · cases k with
    | none => rfl
    | some kk =>
      by_cases hk : kk = "" <;>
        simp [ClickUpService.init, hk, Except.isOk, Except.toBool]
  · intro h
    cases k with
    | none => simp [ClickUpService.init] at h
    | some kk =>
      by_cases hk : kk = ""
      · simp [ClickUpService.init, hk] at h
      · cases t with
        | none => simp [ClickUpService.init, hk] at h
        | some tt =>
          by_cases ht : tt = ""
          · simp [ClickUpService.init, hk, ht] at h
          · simp [ClickUpService.init, hk, ht] at h
            subst h
            exact ⟨rfl, rfl⟩

/-- C8 witness: with both values absent in turn the constructor errors, and
with both present the instance carries exactly the three headers. -/
theorem C8_witness :
    (ClickUpService.init none (some "t")).isOk = false ∧
    (ClickUpService.init (some "k") none).isOk = false ∧
    (some "k" =
      some (ClickUpService.mk "k" "t"
        [("Authorization", "k"), ("Content-Type", "application/json"),
         ("Accept", "application/json")]).api_key ∧
     (ClickUpService.mk "k" "t"
        [("Authorization", "k"), ("Content-Type", "application/json"),
         ("Accept", "application/json")]).headers =
       [("Authorization",
          (ClickUpService.mk "k" "t"
            [("Authorization", "k"), ("Content-Type", "application/json"),
             ("Accept", "application/json")]).api_key),
        ("Content-Type", "application/json"),
        ("Accept", "application/json")]) :=
  ⟨(C8_init_requires_config_and_sets_headers none (some "t")
      ⟨"k", "t", []⟩).1,
   (C8_init_requires_config_and_sets_headers (some "k") none
      ⟨"k", "t", []⟩).2.1,
   (C8_init_requires_config_and_sets_headers (some "k") (some "t")
      (ClickUpService.mk "k" "t"
        [("Authorization", "k"), ("Content-Type", "application/json"),
         ("Accept", "application/json")])).2.2 rfl⟩

/-- C9: every `create_task` payload contains `name`, `due_date_time` and
`start_date_time` — the latter two even when the caller omits the flags
(the agent wrapper defaults them to `false`) — while each other optional
field appears exactly when its provided value is Python-truthy, so a
falsy provided value (empty string, empty list, zero) is silently
dropped from the payload. -/
theorem C9_create_payload_field_presence :
    (∀ (svc : ClickUpService) (list_id name : String)
        (description : Option String) (due_date priority : Option Int)
        (ddt : Bool) (time_estimate start_date : Option Int) (sdt : Bool)
        (assignees tags : Option JValue) (status : Option String)
        (custom_fields : Option JValue),
      "name" ∈ createKeys svc list_id name description due_date priority ddt
        time_estimate start_date sdt assignees tags status custom_fields ∧
      "due_date_time" ∈ createKeys svc list_id name description due_date
        priority ddt time_estimate start_date sdt assignees tags status
        custom_fields ∧
      "start_date_time" ∈ createKeys svc list_id name description due_date
        priority ddt time_estimate start_date sdt assignees tags status
        custom_fields ∧
      ("description" ∈ createKeys svc list_id name description due_date
          priority ddt time_estimate start_date sdt assignees tags status
          custom_fields ↔ optStrTruthy description = true) ∧
      ("due_date" ∈ createKeys svc list_id name description due_date
          priority ddt time_estimate start_date sdt assignees tags status
          custom_fields ↔ optIntTruthy due_date = true) ∧
      ("priority" ∈ createKeys svc list_id name description due_date
          priority ddt time_estimate start_date sdt assignees tags status
          custom_fields ↔ optIntTruthy priority = true) ∧
      ("time_estimate" ∈ createKeys svc list_id name description due_date
          priority ddt time_estimate start_date sdt assignees tags status
          custom_fields ↔ optIntTruthy time_estimate = true) ∧
      ("start_date" ∈ createKeys svc list_id name description due_date
          priority ddt time_estimate start_date sdt assignees tags status
          custom_fields ↔ optIntTruthy start_date = true) ∧
      ("assignees" ∈ createKeys svc list_id name description due_date
          priority ddt time_estimate start_date sdt assignees tags status
          custom_fields ↔ optJTruthy assignees = true) ∧
      ("tags" ∈ createKeys svc list_id name description due_date priority
          ddt time_estimate start_date sdt assignees tags status
          custom_fields ↔ optJTruthy tags = true) ∧
      ("status" ∈ createKeys svc list_id name description due_date priority
          ddt time_estimate start_date sdt assignees tags status
          custom_fields ↔ optStrTruthy status = true)) ∧
    createKeys svcA "l1" "T"
      (some "") none none
      false none none
      false (some (.arr [])) none
      none none =
      ["name", "due_date_time", "start_date_time"] ∧
    (create_clickup_task svcA "l1" "T"
      none none none
      none none none
      none none none
      none).toOption.map RemoteRequest.payloadKeys =
      some ["name", "due_date_time", "start_date_time"] := by
  refine ⟨?_, rfl, rfl⟩
  intro svc list_id name description due_date priority ddt time_estimate
    start_date sdt assignees tags status custom_fields
  simp only [createKeys, RemoteRequest.payloadKeys,
    ClickUpService.create_task, List.map_append, List.map_cons,
    List.map_nil, List.mem_append, List.mem_cons, List.not_mem_nil,
    mem_keys_gatedStr, mem_keys_gatedInt, mem_keys_gatedJ]
  simp

/-- C10: no node of the workflow graph writes the `spaces`, `lists`,
`tasks` or `proverbs` fields — `chat_node` updates only `messages` in
both its outcomes, the tool node appends only tool-result messages — so
every completed turn leaves the cached `spaces`, `lists`, `tasks` and
`proverbs` sequences exactly as they were when the turn began. -/
theorem C10_nodes_touch_only_messages :
    (∀ (state : AgentState) (response : Response),
      (chat_node state response).update.spaces = none ∧
      (chat_node state response).update.lists = none ∧
      (chat_node state response).update.tasks = none ∧
      (chat_node state response).update.proverbs = none) ∧
    (∀ (execTool : ToolCall → Message) (calls : List ToolCall),
      (tool_node_update execTool calls).spaces = none ∧
      (tool_node_update execTool calls).lists = none ∧
      (tool_node_update execTool calls).tasks = none ∧
      (tool_node_update execTool calls).proverbs = none) ∧
    (∀ (execTool : ToolCall → Message) (fuel : Nat) (state : AgentState)
        (script : List Response) (final : AgentState) (r d : Nat),
      runTurn execTool fuel state script = some (final, r, d) →
      final.spaces = state.spaces ∧ final.lists = state.lists ∧
      final.tasks = state.tasks ∧ final.proverbs = state.proverbs) := by
  refine ⟨?_, ?_, ?_⟩
  · intro state response
    simp [chat_node_update_eq, messagesOnly]
  · intro execTool calls
    simp [tool_node_update, messagesOnly]
  · intro execTool fuel state script final r d h
    exact runTurn_frame execTool fuel state script final r d h

/-- C10 witness: a concrete two-node turn (one local dispatch, then DONE)
ends with the cached `spaces`, `lists`, `tasks` and `proverbs` of `st0`
unchanged. -/
theorem C10_witness :
    runTurn execT 5 st0 [respLocal, respPlain] =
      some ({ st0 with
        messages := [.ai respLocal, .tool "ok" "c1", .ai respPlain] },
        2, 1) ∧
    ({ st0 with
        messages := [.ai respLocal, .tool "ok" "c1", .ai respPlain]
        : AgentState }).spaces = st0.spaces ∧
    ({ st0 with
        messages := [.ai respLocal, .tool "ok" "c1", .ai respPlain]
        : AgentState }).lists = st0.lists ∧
    ({ st0 with
        messages := [.ai respLocal, .tool "ok" "c1", .ai respPlain]
        : AgentState }).tasks = st0.tasks ∧
    ({ st0 with
        messages := [.ai respLocal, .tool "ok" "c1", .ai respPlain]
        : AgentState }).proverbs = st0.proverbs :=
  ⟨rfl,
   C10_nodes_touch_only_messages.2.2 execT 5 st0 [respLocal, respPlain]
     ({ st0 with
        messages := [.ai respLocal, .tool "ok" "c1", .ai respPlain] })
     2 1 rfl⟩

end PM
